import Mathlib

/-!
Verification of the legal-agent proof-of-concept service
(`src/main.py`, `src/agent.py`, `src/models.py`, `src/vectorstore.py`).

The SQLite tables `sessions` and `queries` are embedded as Lean lists of
rows held in a `DB` structure; SQL statements become list operations:
`WHERE session_id = ?` is a filter, `ORDER BY created_at` is a sort by the
`created_at` key. `created_at` values are produced by the code as ISO-8601
UTC strings whose lexicographic order coincides with chronological order,
so they are modelled as `Nat` timestamps. SQLite's `ORDER BY` on this key
is modelled as a stable insertion sort.

The JSON blobs `result_json` and `messages_json` are modelled as the parsed
`LegalResult` value and an opaque `String` respectively. The external agent
run (`legal_agent.run`) is an opaque parameter: a function from the loaded
message history to its structured output and serialized new messages.
-/

namespace LegalAgent

/-- A cited source document, `LegalSource` in `src/models.py`. The Python
`relevance_score` is a float that the code under verification never
computes with, only stores and copies; it is modelled as `Int`, and the
`retrieved_at` datetime as its serialized string. -/
structure LegalSource where
  document_id : String
  title : String
  «section» : String
  retrieved_text : String
  relevance_score : Int
  retrieved_at : String
deriving DecidableEq

/-- Structured agent output, `LegalResult` in `src/models.py`. -/
structure LegalResult where
  answer : String
  sources_cited : List LegalSource
  confidence : String
  reasoning : String
deriving DecidableEq

/-- A row of the `sessions` table (`src/main.py` schema). -/
structure SessionRow where
  session_id : String
  created_at : Nat
deriving DecidableEq

/-- A row of the `queries` table (`src/main.py` schema), with `result_json`
parsed into a `LegalResult` and `messages_json` kept opaque. -/
structure QueryRow where
  query_id : String
  session_id : String
  user_query : String
  result : LegalResult
  messages_json : String
  created_at : Nat
deriving DecidableEq

/-- The SQLite database: the two tables, each as a list of rows in
insertion (rowid) order. -/
structure DB where
  sessions : List SessionRow
  queries : List QueryRow
deriving DecidableEq

/-- The `ORDER BY created_at` (ascending) comparison on query rows. -/
def createdLE (a b : QueryRow) : Prop := a.created_at ≤ b.created_at

instance : DecidableRel createdLE := fun a b => Nat.decLe a.created_at b.created_at

instance : IsTotal QueryRow createdLE := ⟨fun a b => Nat.le_total a.created_at b.created_at⟩

instance : IsTrans QueryRow createdLE := ⟨fun _ _ _ => Nat.le_trans⟩

/-- `SELECT ... FROM queries WHERE session_id = ? ORDER BY created_at`:
the session's query rows in creation-time order. -/
def sessionQueries (db : DB) (sid : String) : List QueryRow :=
  List.insertionSort createdLE (db.queries.filter (fun q => q.session_id == sid))

/-- One step of the de-duplication loop in `get_lineage`
(`src/main.py`): `if doc_id not in seen_sources: seen_sources[doc_id] = source`.
The Python dict preserves insertion order, so it is an association list
that appends a new key at the end and never overwrites. -/
def insertSeen (seen : List (String × LegalSource)) (s : LegalSource) :
    List (String × LegalSource) :=
  if seen.any (fun p => p.1 == s.document_id) then seen
  else seen ++ [(s.document_id, s)]

/-- One element of the `queries` list built by `get_lineage`. -/
structure LineageQueryEntry where
  query_id : String
  user_query : String
  answer : String
  confidence : String
  reasoning : String
  sources_cited : List LegalSource
  created_at : Nat
deriving DecidableEq

/-- The per-row dict appended to `queries` in the `get_lineage` loop. -/
def mkEntry (row : QueryRow) : LineageQueryEntry :=
  { query_id := row.query_id
    user_query := row.user_query
    answer := row.result.answer
    confidence := row.result.confidence
    reasoning := row.result.reasoning
    sources_cited := row.result.sources_cited
    created_at := row.created_at }

/-- The response shape of `GET /lineage/{session_id}`. -/
structure LineageResponse where
  session_id : String
  total_queries : Nat
  unique_sources : Nat
  queries : List LineageQueryEntry
  all_sources : List LegalSource
deriving DecidableEq

/-- The main loop of `get_lineage`: one pass over the ordered rows,
building the `queries` list and the `seen_sources` dict. -/
def lineageLoop (rows : List QueryRow) :
    List LineageQueryEntry × List (String × LegalSource) :=
  rows.foldl
    (fun acc row =>
      (acc.1 ++ [mkEntry row],
        row.result.sources_cited.foldl insertSeen acc.2))
    ([], [])

/-- `get_lineage` (`src/main.py` lines 134-184): fetch the session's rows in
creation-time order; answer a zeroed structure when there are none;
otherwise run the de-duplication loop and assemble the response with
`total_queries = len(queries)`, `unique_sources = len(seen_sources)` and
`all_sources = list(seen_sources.values())`. -/
def get_lineage (db : DB) (sid : String) : LineageResponse :=
  let rows := sessionQueries db sid
  if rows.isEmpty then
    { session_id := sid
      total_queries := 0
      unique_sources := 0
      queries := []
      all_sources := [] }
  else
    let st := lineageLoop rows
    { session_id := sid
      total_queries := st.1.length
      unique_sources := st.2.length
      queries := st.1
      all_sources := st.2.map Prod.snd }

/-- All citations of a row list, in scan order: each row's `sources_cited`
in sequence. -/
def citationsOf (rows : List QueryRow) : List LegalSource :=
  rows.flatMap (fun r => r.result.sources_cited)

/-- Modelled from the spec wording, for comparison with the code:
scan the citations in order and keep the first-seen record per document
identifier. -/
def firstSeen : List LegalSource → List LegalSource
  | [] => []
  | c :: rest =>
      c :: firstSeen (rest.filter (fun d => !(d.document_id == c.document_id)))
termination_by l => l.length
decreasing_by
  simp only [List.length_cons]
  exact Nat.lt_succ_of_le (List.length_filter_le _ _)

/-- The session-ensuring block of `post_query` (`src/main.py` lines 73-82):
`SELECT 1 FROM sessions WHERE session_id = ?`, and `INSERT` only when the
check found nothing. This is the sequential (interleaving-free) behaviour
of the check-then-insert pair. -/
def ensure_session (db : DB) (sid : String) (now : Nat) : DB :=
  if db.sessions.any (fun s => s.session_id == sid) then db
  else { db with sessions := db.sessions ++ [⟨sid, now⟩] }

/-- The history-loading block of `post_query` (`src/main.py` lines 84-96):
fetch the session's rows ordered by `created_at` and use the
`messages_json` of the last one, or none when the session has no rows. -/
def load_last_history (db : DB) (sid : String) : Option String :=
  (sessionQueries db sid).getLast?.map (fun r => r.messages_json)

/-- The outcome of one `legal_agent.run` call: the structured output and
the serialized new messages (`result.output`,
`ModelMessagesTypeAdapter.dump_json(result.new_messages())`). -/
structure AgentRun where
  output : LegalResult
  new_messages_json : String

/-- `post_query` (`src/main.py` lines 65-131) without the HTTP layer:
ensure the session, load the last history, run the agent on it, persist
the new query row. The agent is an opaque function of the loaded history.
Returns the new database together with the history that was loaded. -/
def post_query (db : DB) (sid qid uq : String) (now : Nat)
    (run : Option String → AgentRun) : DB × Option String :=
  let db1 := ensure_session db sid now
  let hist := load_last_history db1 sid
  let res := run hist
  ({ sessions := db1.sessions
     queries := db1.queries ++
       [{ query_id := qid
          session_id := sid
          user_query := uq
          result := res.output
          messages_json := res.new_messages_json
          created_at := now }] },
   hist)

/-- SQLite errors surfaced by raw statements. -/
inductive SQLiteError
  | integrityError
deriving DecidableEq

/-- The raw `INSERT INTO sessions (session_id, created_at) VALUES (?, ?)`
statement (`src/main.py` line 78): a plain `INSERT`, so SQLite raises an
IntegrityError when the primary key is already present; there is no
`OR IGNORE` clause and no exception handler around it. -/
def insertSessionStmt (db : DB) (sid : String) (now : Nat) :
    Except SQLiteError DB :=
  if db.sessions.any (fun s => s.session_id == sid) then
    Except.error SQLiteError.integrityError
  else
    Except.ok { db with sessions := db.sessions ++ [⟨sid, now⟩] }

/-- The duplicate-session race on the check-then-insert pair: two
first-queries for the same new session id both evaluate the
`SELECT 1 FROM sessions` existence check against the initial database
before either `INSERT` runs (the check and the insert are separate
statements on separate connections), then the two inserts execute in
turn. -/
def ensureSessionRaced (db : DB) (sid : String) (nowA nowB : Nat) :
    Except SQLiteError DB :=
  let aSees := db.sessions.any (fun s => s.session_id == sid)
  let bSees := db.sessions.any (fun s => s.session_id == sid)
  (if aSees then Except.ok db else insertSessionStmt db sid nowA).bind
    (fun db1 =>
      if bSees then Except.ok db1 else insertSessionStmt db1 sid nowB)

/-- The `ORDER BY s.created_at DESC` comparison on session rows, used by
`list_sessions`. -/
def createdDescLE (a b : SessionRow) : Prop := b.created_at ≤ a.created_at

instance : DecidableRel createdDescLE := fun a b => Nat.decLe b.created_at a.created_at

instance : IsTotal SessionRow createdDescLE := ⟨fun a b => Nat.le_total b.created_at a.created_at⟩

instance : IsTrans SessionRow createdDescLE :=
  ⟨fun _ _ _ h1 h2 => Nat.le_trans h2 h1⟩

/-- One element of the `GET /sessions` response. -/
structure SessionSummary where
  session_id : String
  created_at : Nat
  query_count : Nat
deriving DecidableEq

/-- The rows the `LEFT JOIN` of `list_sessions` produces for one session:
one joined row per matching query, or a single row with a null query side
when the session has no queries. -/
def joinGroup (db : DB) (s : SessionRow) : List (SessionRow × Option QueryRow) :=
  let qs := db.queries.filter (fun q => q.session_id == s.session_id)
  if qs.isEmpty then [(s, none)] else qs.map (fun q => (s, some q))

/-- `COUNT(q.query_id)` over a group of joined rows: SQL `COUNT` of a
column counts only non-null values. -/
def groupCount (g : List (SessionRow × Option QueryRow)) : Nat :=
  (g.filter (fun r => r.2.isSome)).length

/-- `list_sessions` (`src/main.py` lines 187-204):
`SELECT s.session_id, s.created_at, COUNT(q.query_id) FROM sessions s
LEFT JOIN queries q ON s.session_id = q.session_id GROUP BY s.session_id
ORDER BY s.created_at DESC`. Since `session_id` is the primary key of
`sessions`, grouping the joined rows by `s.session_id` yields one group
per session row, and that group's count of non-null `q.query_id` values is
the number of query rows owned by the session. -/
def list_sessions (db : DB) : List SessionSummary :=
  (List.insertionSort createdDescLE db.sessions).map
    (fun s =>
      { session_id := s.session_id
        created_at := s.created_at
        query_count :=
          (db.queries.filter (fun q => q.session_id == s.session_id)).length })

/-! ### Retrieval tool layer (`src/agent.py`) -/

/-- One raw retrieval result produced by `search_documents`
(`src/vectorstore.py` lines 151-175): the four payload fields plus the
similarity score (modelled as `Int`, see `LegalSource`). -/
structure RetrievedDoc where
  document_id : String
  title : String
  «section» : String
  text : String
  score : Int
deriving DecidableEq

/-- Python's substring test `needle in hay`. -/
def strContains (hay needle : String) : Bool :=
  hay.toList.tails.any (fun t => needle.toList.isPrefixOf t)

/-- The court-decision title marker of `search_case_law`
(`src/agent.py` lines 56-60): `"BGer" in title or "Mietgericht" in title`. -/
def isCourtDecisionTitle (t : String) : Bool :=
  strContains t "BGer" || strContains t "Mietgericht"

/-- The statute-citation title marker of `search_statutes`
(`src/agent.py` line 72): `"OR Art" in title`. -/
def isStatuteTitle (t : String) : Bool :=
  strContains t "OR Art"

/-- The post-filter of the `search_case_law` tool (`src/agent.py` lines
47-60), applied to the raw results of `search_documents` (the external
vector search, passed in as a list). -/
def search_case_law (results : List RetrievedDoc) : List RetrievedDoc :=
  results.filter (fun r => strContains r.title "BGer" || strContains r.title "Mietgericht")

/-- The post-filter of the `search_statutes` tool (`src/agent.py` lines
63-72). -/
def search_statutes (results : List RetrievedDoc) : List RetrievedDoc :=
  results.filter (fun r => strContains r.title "OR Art")

/-! ### Vector-store seeding (`src/vectorstore.py`) -/

/-- A seed document of the fixed corpus. -/
structure SeedDoc where
  document_id : String
  title : String
  «section» : String
  text : String
deriving DecidableEq

/-- `COLLECTION_NAME` (`src/vectorstore.py` line 9). -/
def COLLECTION_NAME : String := "legal_documents"

/-- `EMBEDDING_DIM` (`src/vectorstore.py` line 11). -/
def EMBEDDING_DIM : Nat := 1536

/-- `SEED_DOCUMENTS` (`src/vectorstore.py` lines 13-101): the fixed corpus,
verbatim. -/
def SEED_DOCUMENTS : List SeedDoc :=
  [ { document_id := "or-art-271"
      title := "OR Art. 271 — Protection Against Termination"
      «section» := "Art. 271 OR (Code of Obligations)"
      text := "A termination of a residential or commercial lease may be contested if it contravenes the principle of good faith. In particular, a termination is contestable if given because the tenant asserts claims arising from the lease in good faith, because the tenant is affiliated with an organisation that represents the interests of tenants, or during proceedings related to the lease. The burden of proof for retaliatory motive rests with the tenant." },
    { document_id := "or-art-271a"
      title := "OR Art. 271a — Annulment of Termination"
      «section» := "Art. 271a OR (Code of Obligations)"
      text := "A termination by the landlord is annullable if given during or within three years after the conclusion of conciliation or court proceedings related to the tenancy, unless the proceedings were initiated in a frivolous manner. A termination is also annullable if given in retaliation for the tenant exercising rights under the lease, such as demanding repairs or reporting defects to the authorities. The three-year protection period begins from the date of final judgment." },
    { document_id := "or-art-259a"
      title := "OR Art. 259a — Tenant Remedies for Defects"
      «section» := "Art. 259a OR (Code of Obligations)"
      text := "If a defect arises during the tenancy that the tenant is not obliged to remedy and that cannot be attributed to the tenant, the tenant may demand that the landlord remedy the defect, reduce the rent in proportion to the defect, or claim damages. For minor defects, the tenant must notify the landlord and allow reasonable time for repair. For serious defects affecting habitability, the tenant may deposit rent with the authorities and seek immediate remediation." },
    { document_id := "bger-4a-123-2024"
      title := "BGer 4A_123/2024 — Federal Supreme Court"
      «section» := "Judgment of 15 March 2024"
      text := "The Federal Supreme Court held that a termination notice served within six months of the tenant filing a complaint about mould and structural dampness was retaliatory within the meaning of Art. 271a OR. The landlord failed to demonstrate a legitimate economic interest independent of the complaint. The court emphasised that temporal proximity between a tenant's assertion of rights and a subsequent termination creates a strong presumption of retaliation that the landlord must rebut with concrete evidence." },
    { document_id := "bger-4a-456-2023"
      title := "BGer 4A_456/2023 — Federal Supreme Court"
      «section» := "Judgment of 22 November 2023"
      text := "In this case the Federal Supreme Court examined whether a planned comprehensive renovation constituted a valid ground for termination under Art. 271 OR. The court ruled that renovation alone does not justify termination unless the landlord proves that continued occupancy would render the renovation substantially more expensive or technically impossible. Mere inconvenience to the construction schedule is insufficient. The tenant's long occupancy of 18 years was a factor weighing against termination." },
    { document_id := "zh-mietgericht-2024-31"
      title := "ZH Mietgericht 2024/31 — Zurich Rental Court"
      «section» := "Decision of 8 July 2024"
      text := "The Zurich Rental Court granted the tenant's petition to annul a termination notice issued after the tenant reported persistent water ingress and requested a rent reduction. The court found that the landlord's stated reason — personal use by a family member — was pretextual, as no concrete plans for personal use were presented. The court awarded the tenant an extension of the lease by two years and ordered the landlord to remedy the reported defects within 90 days." } ]

/-- The distance metric of a collection (`Distance.COSINE` is the only one
the code uses). -/
inductive VDistance
  | cosine
deriving DecidableEq

/-- A point stored in a collection (`PointStruct`): integer id, embedding
vector, and the payload dict, which in `seed_collection` always holds the
four seed-document fields. -/
structure VPoint (V : Type) where
  id : Nat
  vector : V
  payload : SeedDoc

/-- A named qdrant collection: creation parameters plus stored points. -/
structure VCollection (V : Type) where
  name : String
  size : Nat
  distance : VDistance
  points : List (VPoint V)

/-- `client.collection_exists(name)`. -/
def collection_exists {V : Type} (store : List (VCollection V)) (name : String) : Bool :=
  store.any (fun c => c.name == name)

/-- `client.delete_collection(name)`. -/
def delete_collection {V : Type} (store : List (VCollection V)) (name : String) :
    List (VCollection V) :=
  store.filter (fun c => !(c.name == name))

/-- `client.create_collection(name, vectors_config=...)`: a fresh, empty
collection with the given parameters. -/
def create_collection {V : Type} (store : List (VCollection V)) (name : String)
    (size : Nat) (distance : VDistance) : List (VCollection V) :=
  store ++ [{ name := name, size := size, distance := distance, points := [] }]

/-- qdrant upsert of points into a point list: points whose id matches an
incoming one are overwritten, the rest are kept, new points are added. -/
def upsertPoints {V : Type} (old new : List (VPoint V)) : List (VPoint V) :=
  old.filter (fun p => !(new.any (fun q => q.id == p.id))) ++ new

/-- `client.upsert(collection_name, points)`. -/
def upsert {V : Type} (store : List (VCollection V)) (name : String)
    (points : List (VPoint V)) : List (VCollection V) :=
  store.map (fun c =>
    if c.name == name then { c with points := upsertPoints c.points points } else c)

/-- The points built by the seeding loop (`src/vectorstore.py` lines
131-145): for the `i`-th seed document, id `i`, the embedding of its text,
and a payload with its `document_id`, `title`, `section` and `text`. -/
def seedPoints {V : Type} (embed : String → V) : List (VPoint V) :=
  SEED_DOCUMENTS.enum.map (fun p =>
    { id := p.1
      vector := embed p.2.text
      payload :=
        { document_id := p.2.document_id
          title := p.2.title
          «section» := p.2.«section»
          text := p.2.text } })

/-- `seed_collection` (`src/vectorstore.py` lines 117-148): delete any
existing collection with the configured name, create a fresh one sized to
the embedding dimension with cosine distance, embed every seed document
and upsert the resulting points. The embedding call is the opaque
parameter `embed`. -/
def seed_collection {V : Type} (embed : String → V) (store : List (VCollection V)) :
    List (VCollection V) :=
  let store1 :=
    if collection_exists store COLLECTION_NAME then
      delete_collection store COLLECTION_NAME
    else store
  let store2 := create_collection store1 COLLECTION_NAME EMBEDDING_DIM VDistance.cosine
  upsert store2 COLLECTION_NAME (seedPoints embed)

/-! ### Concrete fixtures used by witnesses and examples -/

/-- Citation record A, first occurrence (distinct payload from `srcA2`). -/
def srcA1 : LegalSource :=
  { document_id := "A", title := "Doc A first", «section» := "sA1"
    retrieved_text := "tA1", relevance_score := 90, retrieved_at := "r1" }

/-- Citation record B. -/
def srcB : LegalSource :=
  { document_id := "B", title := "Doc B", «section» := "sB"
    retrieved_text := "tB", relevance_score := 80, retrieved_at := "r2" }

/-- Citation record A, second occurrence: same document identifier as
`srcA1` but a different payload. -/
def srcA2 : LegalSource :=
  { document_id := "A", title := "Doc A second", «section» := "sA2"
    retrieved_text := "tA2", relevance_score := 70, retrieved_at := "r3" }

/-- Citation record C. -/
def srcC : LegalSource :=
  { document_id := "C", title := "Doc C", «section» := "sC"
    retrieved_text := "tC", relevance_score := 60, retrieved_at := "r4" }

/-- A session whose two queries cite `[A, B]` then `[A, C]`, giving the
citation scan order `[A, B, A, C]`. -/
def exampleDB : DB :=
  { sessions := [{ session_id := "sess", created_at := 1 }]
    queries :=
      [ { query_id := "q1", session_id := "sess", user_query := "u1"
          result := { answer := "ans1", sources_cited := [srcA1, srcB]
                      confidence := "high", reasoning := "re1" }
          messages_json := "m1", created_at := 1 },
        { query_id := "q2", session_id := "sess", user_query := "u2"
          result := { answer := "ans2", sources_cited := [srcA2, srcC]
                      confidence := "medium", reasoning := "re2" }
          messages_json := "m2", created_at := 2 } ] }

/-- A database holding one session `"other"` with one query; the session
id `"ghost"` was never seen. -/
def c5DB : DB :=
  { sessions := [{ session_id := "other", created_at := 0 }]
    queries :=
      [ { query_id := "q1", session_id := "other", user_query := "u"
          result := { answer := "a", sources_cited := [srcB]
                      confidence := "low", reasoning := "r" }
          messages_json := "m", created_at := 0 } ] }

/-- The empty database (fresh service state). -/
def emptyDB : DB := { sessions := [], queries := [] }

/-- The second query row of `exampleDB`, the strict latest of its session. -/
def row2W : QueryRow :=
  { query_id := "q2", session_id := "sess", user_query := "u2"
    result := { answer := "ans2", sources_cited := [srcA2, srcC]
                confidence := "medium", reasoning := "re2" }
    messages_json := "m2", created_at := 2 }

/-- A concrete agent stand-in for witnesses: echoes whether it saw a
history in its serialized messages. -/
def runW : Option String → AgentRun
  | none => { output := { answer := "first", sources_cited := [srcB]
                          confidence := "high", reasoning := "r1" }
              new_messages_json := "blob-after-turn-1" }
  | some h => { output := { answer := "followup", sources_cited := [srcC]
                            confidence := "medium", reasoning := "r2" }
                new_messages_json := String.append h "+turn" }

/-- The raw retrieval result with a court-decision title, from the spec's
filter example. -/
def exDocBGer : RetrievedDoc :=
  { document_id := "d1", title := "BGer 1", «section» := "s1", text := "t1", score := 9 }

/-- The raw retrieval result with a statute title, from the spec's filter
example. -/
def exDocORArt : RetrievedDoc :=
  { document_id := "d2", title := "OR Art 5", «section» := "s2", text := "t2", score := 8 }

/-- A database with two sessions, one of which has no queries, for the
`list_sessions` witness. -/
def c8DB : DB :=
  { sessions :=
      [ { session_id := "old", created_at := 1 },
        { session_id := "new", created_at := 5 } ]
    queries :=
      [ { query_id := "q1", session_id := "old", user_query := "u"
          result := { answer := "a", sources_cited := []
                      confidence := "low", reasoning := "r" }
          messages_json := "m", created_at := 2 } ] }

/-! ### Helper lemmas -/

/-- String `==` is symmetric. -/
theorem strBeqComm (a b : String) : (a == b) = (b == a) := by
  by_cases h : a = b
  · subst h; rfl
  · have h2 : ¬ b = a := fun e => h (Eq.symm e)
    simp [h, h2]

/-- `insertSeen` when the document identifier is already a key. -/
theorem insertSeen_of_mem {seen : List (String × LegalSource)} {c : LegalSource}
    (h : seen.any (fun p => p.1 == c.document_id) = true) :
    insertSeen seen c = seen := by
  unfold insertSeen
  rw [if_pos h]

/-- `insertSeen` when the document identifier is a new key. -/
theorem insertSeen_of_not_mem {seen : List (String × LegalSource)} {c : LegalSource}
    (h : seen.any (fun p => p.1 == c.document_id) = false) :
    insertSeen seen c = seen ++ [(c.document_id, c)] := by
  unfold insertSeen
  rw [if_neg (by rw [h]; exact Bool.false_ne_true)]

theorem foldl_lineage_fst (rows : List QueryRow) :
    ∀ (qs : List LineageQueryEntry) (seen : List (String × LegalSource)),
      (rows.foldl
          (fun acc row =>
            (acc.1 ++ [mkEntry row],
              row.result.sources_cited.foldl insertSeen acc.2))
          (qs, seen)).1
        = qs ++ rows.map mkEntry := by
  induction rows with
  | nil => intro qs seen; simp
  | cons r rest ih =>
    intro qs seen
    rw [List.foldl_cons, ih]
    simp

theorem foldl_lineage_snd (rows : List QueryRow) :
    ∀ (qs : List LineageQueryEntry) (seen : List (String × LegalSource)),
      (rows.foldl
          (fun acc row =>
            (acc.1 ++ [mkEntry row],
              row.result.sources_cited.foldl insertSeen acc.2))
          (qs, seen)).2
        = (citationsOf rows).foldl insertSeen seen := by
  induction rows with
  | nil => intro qs seen; simp [citationsOf]
  | cons r rest ih =>
    intro qs seen
    rw [List.foldl_cons, ih]
    simp [citationsOf, List.foldl_append]

theorem lineageLoop_eq (rows : List QueryRow) :
    lineageLoop rows
      = (rows.map mkEntry, (citationsOf rows).foldl insertSeen []) := by
  unfold lineageLoop
  refine Prod.ext ?_ ?_
  · simpa using foldl_lineage_fst rows [] []
  · simpa using foldl_lineage_snd rows [] []

/-- `get_lineage` in closed form: both branches of the emptiness check
agree with the single formula below. -/
theorem get_lineage_eq (db : DB) (sid : String) :
    get_lineage db sid
      = { session_id := sid
          total_queries := (sessionQueries db sid).length
          unique_sources :=
            ((citationsOf (sessionQueries db sid)).foldl insertSeen []).length
          queries := (sessionQueries db sid).map mkEntry
          all_sources :=
            ((citationsOf (sessionQueries db sid)).foldl insertSeen []).map Prod.snd } := by
  unfold get_lineage
  by_cases h : (sessionQueries db sid).isEmpty
  · have hnil : sessionQueries db sid = [] := List.isEmpty_iff.mp h
    simp [h, hnil, citationsOf]
  · simp only [h, if_neg, Bool.false_eq_true, if_false, lineageLoop_eq]
    simp [List.length_map]

theorem foldl_insertSeen_map_snd (cits : List LegalSource) :
    ∀ (seen : List (String × LegalSource)),
      ((cits.foldl insertSeen seen).map Prod.snd)
        = seen.map Prod.snd
          ++ firstSeen
              (cits.filter (fun c => !(seen.any (fun p => p.1 == c.document_id)))) := by
  induction cits with
  | nil => intro seen; simp [firstSeen]
  | cons c rest ih =>
    intro seen
    by_cases h : seen.any (fun p => p.1 == c.document_id) = true
    · rw [List.foldl_cons, insertSeen_of_mem h, ih seen]
      congr 2
      rw [List.filter_cons]
      simp [h]
    · have hfalse : seen.any (fun p => p.1 == c.document_id) = false :=
        Bool.eq_false_iff.mpr h
      rw [List.foldl_cons, insertSeen_of_not_mem hfalse,
        ih (seen ++ [(c.document_id, c)])]
      have hpred :
          List.filter
              (fun d => !((seen ++ [(c.document_id, c)]).any fun p => p.1 == d.document_id)) rest
            = List.filter (fun d => !(d.document_id == c.document_id))
                (List.filter (fun d => !(seen.any fun p => p.1 == d.document_id)) rest) := by
        rw [List.filter_filter]
        refine List.filter_congr ?_
        intro a _
        show (!((seen ++ [(c.document_id, c)]).any fun p => p.1 == a.document_id))
            = ((!(a.document_id == c.document_id)) && !(seen.any fun p => p.1 == a.document_id))
        have hany : ((seen ++ [(c.document_id, c)]).any fun p => p.1 == a.document_id)
            = (seen.any (fun p => p.1 == a.document_id) || (c.document_id == a.document_id)) := by
          rw [List.any_append]
          simp
        rw [hany, Bool.not_or, strBeqComm c.document_id a.document_id, Bool.and_comm]
      rw [hpred]
      rw [List.filter_cons]
      simp only [hfalse, Bool.not_false, if_pos]
      rw [show firstSeen (c :: List.filter (fun d => !(seen.any fun p => p.1 == d.document_id)) rest)
            = c :: firstSeen
                (List.filter (fun d => !(d.document_id == c.document_id))
                  (List.filter (fun d => !(seen.any fun p => p.1 == d.document_id)) rest)) from by
          simp [firstSeen]]
      simp [List.map_append, List.append_assoc]

/-- The values of the `seen_sources` dict, when the scan starts empty, are
exactly the first-seen record per document identifier. -/
theorem scan_map_snd (cits : List LegalSource) :
    ((cits.foldl insertSeen []).map Prod.snd) = firstSeen cits := by
  have h := foldl_insertSeen_map_snd cits []
  simpa [List.filter_true] using h

theorem mem_keys_foldl_insertSeen (cits : List LegalSource) :
    ∀ (seen : List (String × LegalSource)) (d : String),
      d ∈ (cits.foldl insertSeen seen).map Prod.fst
        ↔ d ∈ seen.map Prod.fst ∨ d ∈ cits.map (fun c => c.document_id) := by
  induction cits with
  | nil => intro seen d; simp
  | cons c rest ih =>
    intro seen d
    by_cases h : seen.any (fun p => p.1 == c.document_id) = true
    · have hmem : c.document_id ∈ seen.map Prod.fst := by
        rcases List.any_eq_true.mp h with ⟨p, hp, hpd⟩
        have hpd2 : p.1 = c.document_id := by simpa using hpd
        exact hpd2 ▸ List.mem_map_of_mem Prod.fst hp
      rw [List.foldl_cons, insertSeen_of_mem h, ih seen d, List.map_cons]
      constructor
      · rintro (hs | hr)
        · exact Or.inl hs
        · exact Or.inr (List.mem_cons_of_mem _ hr)
      · rintro (hs | hr)
        · exact Or.inl hs
        · rcases List.mem_cons.mp hr with he | hr'
          · exact Or.inl (he ▸ hmem)
          · exact Or.inr hr'
    · have hfalse : seen.any (fun p => p.1 == c.document_id) = false :=
        Bool.eq_false_iff.mpr h
      rw [List.foldl_cons, insertSeen_of_not_mem hfalse,
        ih (seen ++ [(c.document_id, c)]) d]
      simp [or_assoc]

theorem nodup_keys_foldl_insertSeen (cits : List LegalSource) :
    ∀ (seen : List (String × LegalSource)),
      (seen.map Prod.fst).Nodup → ((cits.foldl insertSeen seen).map Prod.fst).Nodup := by
  induction cits with
  | nil => intro seen h; simpa using h
  | cons c rest ih =>
    intro seen h
    by_cases hc : seen.any (fun p => p.1 == c.document_id) = true
    · rw [List.foldl_cons, insertSeen_of_mem hc]
      exact ih seen h
    · have hfalse : seen.any (fun p => p.1 == c.document_id) = false :=
        Bool.eq_false_iff.mpr hc
      have hnot : c.document_id ∉ seen.map Prod.fst := by
        intro hmem
        rcases List.mem_map.mp hmem with ⟨p, hp, hpd⟩
        have hany : seen.any (fun p => p.1 == c.document_id) = true :=
          List.any_eq_true.mpr ⟨p, hp, by simp [hpd]⟩
        rw [hany] at hfalse
        exact Bool.false_ne_true hfalse.symm
      rw [List.foldl_cons, insertSeen_of_not_mem hfalse]
      refine ih _ ?_
      rw [List.map_append]
      refine List.nodup_append.mpr ⟨h, by simp, ?_⟩
      intro a ha hb
      have hae : a = c.document_id := by simpa using hb
      exact hnot (hae ▸ ha)

theorem fst_eq_docid_foldl_insertSeen (cits : List LegalSource) :
    ∀ (seen : List (String × LegalSource)),
      (∀ p ∈ seen, p.1 = p.2.document_id) →
      ∀ p ∈ cits.foldl insertSeen seen, p.1 = p.2.document_id := by
  induction cits with
  | nil => intro seen h; simpa using h
  | cons c rest ih =>
    intro seen h
    rw [List.foldl_cons]
    refine ih (insertSeen seen c) ?_
    intro p hp
    by_cases hc : seen.any (fun q => q.1 == c.document_id) = true
    · rw [insertSeen_of_mem hc] at hp
      exact h p hp
    · have hfalse : seen.any (fun q => q.1 == c.document_id) = false :=
        Bool.eq_false_iff.mpr hc
      rw [insertSeen_of_not_mem hfalse] at hp
      rcases List.mem_append.mp hp with hs | hn
      · exact h p hs
      · have hpe : p = (c.document_id, c) := by simpa using hn
        subst hpe
        rfl

theorem sessionQueries_sorted (db : DB) (sid : String) :
    List.Sorted createdLE (sessionQueries db sid) :=
  List.sorted_insertionSort createdLE _

theorem sessionQueries_perm (db : DB) (sid : String) :
    (sessionQueries db sid).Perm
      (db.queries.filter (fun q => q.session_id == sid)) :=
  List.perm_insertionSort createdLE _

theorem entries_flatMap_sources (rows : List QueryRow) :
    (rows.map mkEntry).flatMap (fun e => e.sources_cited) = citationsOf rows := by
  rw [List.flatMap_map]
  rfl

/-- The `seen_sources` dict holds one entry per distinct document
identifier among the scanned citations. -/
theorem scan_length_eq_card (cits : List LegalSource) :
    (cits.foldl insertSeen []).length
      = ((cits.map (fun s => s.document_id)).toFinset).card := by
  have hnd : ((cits.foldl insertSeen []).map Prod.fst).Nodup :=
    nodup_keys_foldl_insertSeen cits [] (by simp)
  have hmem : ∀ d, d ∈ (cits.foldl insertSeen []).map Prod.fst
      ↔ d ∈ cits.map (fun c => c.document_id) := by
    intro d
    have h := mem_keys_foldl_insertSeen cits [] d
    simpa using h
  have hset : ((cits.foldl insertSeen []).map Prod.fst).toFinset
      = (cits.map (fun s => s.document_id)).toFinset := by
    ext d
    simp only [List.mem_toFinset]
    exact hmem d
  calc (cits.foldl insertSeen []).length
      = ((cits.foldl insertSeen []).map Prod.fst).length :=
        (List.length_map _ _).symm
    _ = ((cits.foldl insertSeen []).map Prod.fst).toFinset.card :=
        (List.toFinset_card_of_nodup hnd).symm
    _ = _ := by rw [hset]

/-- The document identifiers of the de-duplicated source values are
pairwise distinct. -/
theorem scan_snd_docids_nodup (cits : List LegalSource) :
    (((cits.foldl insertSeen []).map Prod.snd).map (fun s => s.document_id)).Nodup := by
  have hfst := fst_eq_docid_foldl_insertSeen cits [] (by simp)
  have hmaps : ((cits.foldl insertSeen []).map Prod.snd).map (fun s => s.document_id)
      = (cits.foldl insertSeen []).map Prod.fst := by
    rw [List.map_map]
    refine List.map_congr_left ?_
    intro p hp
    exact (hfst p hp).symm
  rw [hmaps]
  exact nodup_keys_foldl_insertSeen cits [] (by simp)

/-- `ensure_session` never touches the `queries` table. -/
theorem ensure_session_queries (db : DB) (sid : String) (now : Nat) :
    (ensure_session db sid now).queries = db.queries := by
  unfold ensure_session
  split <;> rfl

theorem load_last_history_ensure (db : DB) (sid sid2 : String) (now : Nat) :
    load_last_history (ensure_session db sid now) sid2 = load_last_history db sid2 := by
  unfold load_last_history sessionQueries
  rw [ensure_session_queries]

/-- The history a `post_query` call loads is the last stored history of
the session in the incoming database. -/
theorem post_query_snd (db : DB) (sid qid uq : String) (now : Nat)
    (run : Option String → AgentRun) :
    (post_query db sid qid uq now run).2 = load_last_history db sid :=
  load_last_history_ensure db sid sid now

/-- The new `queries` table after a `post_query` call: the old rows plus
the one persisted row, whose `messages_json` is the blob the agent run
returned for the loaded history. -/
theorem post_query_queries (db : DB) (sid qid uq : String) (now : Nat)
    (run : Option String → AgentRun) :
    (post_query db sid qid uq now run).1.queries
      = db.queries ++
        [{ query_id := qid, session_id := sid, user_query := uq
           result := (run (load_last_history db sid)).output
           messages_json := (run (load_last_history db sid)).new_messages_json
           created_at := now }] := by
  show (ensure_session db sid now).queries ++
        [{ query_id := qid, session_id := sid, user_query := uq
           result := (run (load_last_history (ensure_session db sid now) sid)).output
           messages_json :=
             (run (load_last_history (ensure_session db sid now) sid)).new_messages_json
           created_at := now }]
      = _
  rw [ensure_session_queries, load_last_history_ensure]

theorem load_last_history_eq_none (db : DB) (sid : String)
    (h : db.queries.filter (fun q => q.session_id == sid) = []) :
    load_last_history db sid = none := by
  unfold load_last_history sessionQueries
  rw [h]
  rfl

/-- In a sorted list, an element strictly above every other element is the
last one. -/
theorem getLast_of_sorted_strict_max :
    ∀ (l : List QueryRow), List.Sorted createdLE l → ∀ x, x ∈ l →
      (∀ y ∈ l, y ≠ x → y.created_at < x.created_at) → l.getLast? = some x
  | [], _, x, hx, _ => absurd hx (List.not_mem_nil x)
  | [a], _, x, hx, _ => by
      have hxa : x = a := by simpa using hx
      subst hxa
      rfl
  | a :: b :: t, hs, x, hx, hmax => by
      rw [List.getLast?_cons_cons]
      have hxbt : x ∈ b :: t := by
        rcases List.mem_cons.mp hx with he | hm
        · by_contra hnot
          have hbx : b ≠ x := fun e => hnot (e ▸ List.mem_cons_self b t)
          have hblt : b.created_at < x.created_at :=
            hmax b (List.mem_cons_of_mem a (List.mem_cons_self b t)) hbx
          have hab : createdLE a b := List.rel_of_sorted_cons hs b (List.mem_cons_self b t)
          have hab2 : x.created_at ≤ b.created_at := by rw [he]; exact hab
          exact absurd hblt (Nat.not_lt.mpr hab2)
        · exact hm
      exact getLast_of_sorted_strict_max (b :: t) hs.of_cons x hxbt
        (fun y hy hne => hmax y (List.mem_cons_of_mem a hy) hne)

/-- The loaded history is the blob of the strictly latest row of the
session. -/
theorem load_last_history_max (db : DB) (sid : String) (r : QueryRow)
    (hr : r ∈ db.queries) (hsid : r.session_id = sid)
    (hmax : ∀ y ∈ db.queries, y.session_id = sid → y ≠ r → y.created_at < r.created_at) :
    load_last_history db sid = some r.messages_json := by
  have hmem : r ∈ sessionQueries db sid :=
    (List.mem_insertionSort createdLE).mpr
      (List.mem_filter.mpr ⟨hr, by simp [hsid]⟩)
  have hmax2 : ∀ y ∈ sessionQueries db sid, y ≠ r → y.created_at < r.created_at := by
    intro y hy hne
    have hy2 := List.mem_filter.mp ((List.mem_insertionSort createdLE).mp hy)
    exact hmax y hy2.1 (by simpa using hy2.2) hne
  have hlast := getLast_of_sorted_strict_max (sessionQueries db sid)
    (sessionQueries_sorted db sid) r hmem hmax2
  unfold load_last_history
  rw [hlast]
  rfl

/-! ### Claim theorems -/

/-- C1: for every session, `get_lineage` returns all of that session's
queries ordered by creation time ascending, and `all_sources` is the
result of scanning the citations of those queries in that same order and
keeping the first-seen record per document identifier, with
`unique_sources` the count of distinct document identifiers; concretely,
for citations `[A, B, A, C]` in order the unique sources are `[A, B, C]`
and the record kept for `A` is the one from its first occurrence. -/
theorem c1_lineage_order_and_dedup :
    (∀ (db : DB) (sid : String),
        ((get_lineage db sid).queries).Perm
            ((db.queries.filter (fun q => q.session_id == sid)).map mkEntry)
          ∧ List.Pairwise (fun a b : LineageQueryEntry => a.created_at ≤ b.created_at)
              ((get_lineage db sid).queries)
          ∧ (get_lineage db sid).all_sources
              = firstSeen ((get_lineage db sid).queries.flatMap (fun e => e.sources_cited))
          ∧ (get_lineage db sid).unique_sources
              = ((((get_lineage db sid).queries.flatMap (fun e => e.sources_cited)).map
                    (fun s => s.document_id)).toFinset).card)
      ∧ (get_lineage exampleDB "sess").all_sources = [srcA1, srcB, srcC]
      ∧ (get_lineage exampleDB "sess").unique_sources = 3 := by
  refine ⟨fun db sid => ?_, ?_, ?_⟩
  · simp only [get_lineage_eq]
    refine ⟨?_, ?_, ?_, ?_⟩
    · exact List.Perm.map mkEntry (sessionQueries_perm db sid)
    · exact List.Pairwise.map mkEntry (fun a b h => h) (sessionQueries_sorted db sid)
    · rw [entries_flatMap_sources]
      exact scan_map_snd _
    · rw [entries_flatMap_sources]
      exact scan_length_eq_card _
  · decide
  · decide

/-- C5: for every session identifier with no persisted queries (including
never-seen ids), `get_lineage` returns the empty-but-valid aggregate
echoing the requested session id, not an error. -/
theorem c5_unknown_session_empty (db : DB) (sid : String)
    (h : db.queries.filter (fun q => q.session_id == sid) = []) :
    get_lineage db sid
      = { session_id := sid, total_queries := 0, unique_sources := 0
          queries := [], all_sources := [] } := by
  have hrows : sessionQueries db sid = [] := by
    unfold sessionQueries
    rw [h]
    rfl
  rw [get_lineage_eq, hrows]
  simp [citationsOf]

/-- Witness for C5 at a concrete database whose only session is `"other"`,
looked up with the never-seen id `"ghost"`. -/
theorem c5_witness :
    get_lineage c5DB "ghost"
      = { session_id := "ghost", total_queries := 0, unique_sources := 0
          queries := [], all_sources := [] } :=
  c5_unknown_session_empty c5DB "ghost" (by decide)

/-- C10: every lineage response is internally consistent: `total_queries`
is the length of `queries`, `unique_sources` is the length of
`all_sources`, each document identifier occurs at most once in
`all_sources`, and `all_sources` is ordered by first occurrence of each
document identifier across the queries in the order they are returned. -/
theorem c10_lineage_internal_consistency :
    ∀ (db : DB) (sid : String),
      (get_lineage db sid).total_queries = ((get_lineage db sid).queries).length
        ∧ (get_lineage db sid).unique_sources = ((get_lineage db sid).all_sources).length
        ∧ (((get_lineage db sid).all_sources).map (fun s => s.document_id)).Nodup
        ∧ (get_lineage db sid).all_sources
            = firstSeen ((get_lineage db sid).queries.flatMap (fun e => e.sources_cited)) := by
  intro db sid
  simp only [get_lineage_eq]
  refine ⟨?_, ?_, ?_, ?_⟩
  · exact (List.length_map _ _).symm
  · exact (List.length_map _ _).symm
  · exact scan_snd_docids_nodup _
  · rw [entries_flatMap_sources]
    exact scan_map_snd _

/-- C2: the history loaded for the next query on a session is the most
recently persisted (by creation time) history blob of that session, none
when no prior query exists; and for two consecutive queries on the same
session the second call loads exactly the blob the first call persisted. -/
theorem c2_history_continuity :
    (∀ (db : DB) (sid : String) (r : QueryRow),
        r ∈ db.queries → r.session_id = sid →
        (∀ y ∈ db.queries, y.session_id = sid → y ≠ r → y.created_at < r.created_at) →
        load_last_history db sid = some r.messages_json)
      ∧ (∀ (db : DB) (sid : String),
          db.queries.filter (fun q => q.session_id == sid) = [] →
          load_last_history db sid = none)
      ∧ (∀ (db : DB) (sid qid1 qid2 uq1 uq2 : String) (now1 now2 : Nat)
            (run1 run2 : Option String → AgentRun),
          db.queries.filter (fun q => q.session_id == sid) = [] →
          (post_query (post_query db sid qid1 uq1 now1 run1).1 sid qid2 uq2 now2 run2).2
              = some (run1 (post_query db sid qid1 uq1 now1 run1).2).new_messages_json
            ∧ (post_query db sid qid1 uq1 now1 run1).2 = none) := by
  refine ⟨load_last_history_max, load_last_history_eq_none, ?_⟩
  intro db sid qid1 qid2 uq1 uq2 now1 now2 run1 run2 h
  have hnone : load_last_history db sid = none := load_last_history_eq_none db sid h
  have hsnd1 : (post_query db sid qid1 uq1 now1 run1).2 = load_last_history db sid :=
    post_query_snd db sid qid1 uq1 now1 run1
  refine ⟨?_, hsnd1.trans hnone⟩
  rw [post_query_snd]
  unfold load_last_history sessionQueries
  rw [post_query_queries, List.filter_append, h]
  simp
  rw [hsnd1]

/-- Witness for C2: the strictly latest row of `exampleDB` is loaded; a
session with no rows loads none; and on a fresh database the second of
two queries on session `"s"` loads exactly the blob the first persisted. -/
theorem c2_witness :
    load_last_history exampleDB "sess" = some row2W.messages_json
      ∧ load_last_history c5DB "ghost" = none
      ∧ ((post_query (post_query emptyDB "s" "q1" "u1" 1 runW).1 "s" "q2" "u2" 2 runW).2
            = some (runW (post_query emptyDB "s" "q1" "u1" 1 runW).2).new_messages_json
          ∧ (post_query emptyDB "s" "q1" "u1" 1 runW).2 = none) :=
  ⟨c2_history_continuity.1 exampleDB "sess" row2W (by decide) (by decide) (by decide),
   c2_history_continuity.2.1 c5DB "ghost" (by decide),
   c2_history_continuity.2.2 emptyDB "s" "q1" "q2" "u1" "u2" 1 2 runW runW (by decide)⟩

/-- C3: the ensure-session step inserts a row only when the session id is
absent and is a no-op otherwise (leaving the existing row, timestamp
included, unchanged); it is idempotent, and performed twice on an absent
id it leaves exactly one matching session row. -/
theorem c3_ensure_session_idempotent :
    (∀ (db : DB) (sid : String) (now : Nat),
        db.sessions.any (fun s => s.session_id == sid) = true →
        ensure_session db sid now = db)
      ∧ (∀ (db : DB) (sid : String) (now now2 : Nat),
          ensure_session (ensure_session db sid now) sid now2 = ensure_session db sid now)
      ∧ (∀ (db : DB) (sid : String) (now now2 : Nat),
          (db.sessions.filter (fun s => s.session_id == sid)).length = 0 →
          (((ensure_session (ensure_session db sid now) sid now2).sessions).filter
              (fun s => s.session_id == sid)).length = 1) := by
  refine ⟨?_, ?_, ?_⟩
  · intro db sid now h
    unfold ensure_session
    rw [if_pos h]
  · intro db sid now now2
    by_cases h : db.sessions.any (fun s => s.session_id == sid) = true
    · have h1 : ensure_session db sid now = db := by
        unfold ensure_session
        rw [if_pos h]
      rw [h1]
      unfold ensure_session
      rw [if_pos h]
    · have hfalse := Bool.eq_false_iff.mpr h
      have h1 : ensure_session db sid now
          = { db with sessions := db.sessions ++ [⟨sid, now⟩] } := by
        unfold ensure_session
        rw [if_neg (by rw [hfalse]; exact Bool.false_ne_true)]
      rw [h1]
      unfold ensure_session
      rw [if_pos (by rw [List.any_append]; simp)]
  · intro db sid now now2 h
    have hfilter : db.sessions.filter (fun s => s.session_id == sid) = [] :=
      List.length_eq_zero.mp h
    have hany : db.sessions.any (fun s => s.session_id == sid) = false := by
      cases hval : db.sessions.any (fun s => s.session_id == sid) with
      | false => rfl
      | true =>
        rcases List.any_eq_true.mp hval with ⟨s, hsmem, hsp⟩
        have hmem2 : s ∈ db.sessions.filter (fun s2 => s2.session_id == sid) :=
          List.mem_filter.mpr ⟨hsmem, hsp⟩
        rw [hfilter] at hmem2
        exact absurd hmem2 (List.not_mem_nil s)
    have h1 : ensure_session db sid now
        = { db with sessions := db.sessions ++ [⟨sid, now⟩] } := by
      unfold ensure_session
      rw [if_neg (by rw [hany]; exact Bool.false_ne_true)]
    have h2 : ensure_session { db with sessions := db.sessions ++ [⟨sid, now⟩] } sid now2
        = { db with sessions := db.sessions ++ [⟨sid, now⟩] } := by
      unfold ensure_session
      rw [if_pos (by rw [List.any_append]; simp)]
    rw [h1, h2]
    rw [List.filter_append, hfilter]
    simp

/-- Witness for C3: on `exampleDB` the step is a no-op for the present id
`"sess"`; idempotence at concrete arguments; and two runs on the absent id
`"fresh"` leave exactly one matching row. -/
theorem c3_witness :
    ensure_session exampleDB "sess" 7 = exampleDB
      ∧ ensure_session (ensure_session emptyDB "fresh" 3) "fresh" 4
          = ensure_session emptyDB "fresh" 3
      ∧ (((ensure_session (ensure_session emptyDB "fresh" 3) "fresh" 4).sessions).filter
            (fun s => s.session_id == "fresh")).length = 1 :=
  ⟨c3_ensure_session_idempotent.1 exampleDB "sess" 7 (by decide),
   c3_ensure_session_idempotent.2.1 emptyDB "fresh" 3 4,
   c3_ensure_session_idempotent.2.2 emptyDB "fresh" 3 4 (by decide)⟩

/-- C4 (refuting evaluation): the session insert is a plain `INSERT`, so
inserting an already-present session id raises an IntegrityError rather
than being ignored, and in the two-first-queries race on a new id the
second insert surfaces that error — there is no insert-or-ignore handling
in `post_query`. -/
theorem c4_duplicate_insert_raises :
    insertSessionStmt { sessions := [{ session_id := "s", created_at := 0 }], queries := [] }
        "s" 1
        = Except.error SQLiteError.integrityError
      ∧ ensureSessionRaced emptyDB "s" 0 1 = Except.error SQLiteError.integrityError :=
  ⟨rfl, rfl⟩

/-- C6: case-law search keeps exactly the retrieved results whose title
matches a court-decision marker, statute search exactly those matching the
statute-citation marker; on raw results `[{title:"BGer 1"}, {title:"OR Art 5"}]`
case-law search returns only the first and statute search only the second. -/
theorem c6_search_filters :
    (∀ (results : List RetrievedDoc) (r : RetrievedDoc),
        r ∈ search_case_law results ↔ r ∈ results ∧ isCourtDecisionTitle r.title = true)
      ∧ (∀ (results : List RetrievedDoc) (r : RetrievedDoc),
          r ∈ search_statutes results ↔ r ∈ results ∧ isStatuteTitle r.title = true)
      ∧ (∀ (results : List RetrievedDoc), (search_case_law results).Sublist results)
      ∧ (∀ (results : List RetrievedDoc), (search_statutes results).Sublist results)
      ∧ search_case_law [exDocBGer, exDocORArt] = [exDocBGer]
      ∧ search_statutes [exDocBGer, exDocORArt] = [exDocORArt] := by
  refine ⟨?_, ?_, ?_, ?_, ?_, ?_⟩
  · intro results r
    exact List.mem_filter
  · intro results r
    exact List.mem_filter
  · intro results
    exact List.filter_sublist results
  · intro results
    exact List.filter_sublist results
  · decide
  · decide

/-- C7: when the category filter removes every candidate, the specialized
searches return the empty list rather than an error. -/
theorem c7_empty_filter_not_error :
    (∀ (results : List RetrievedDoc),
        (∀ r ∈ results, isCourtDecisionTitle r.title = false) →
        search_case_law results = [])
      ∧ (∀ (results : List RetrievedDoc),
          (∀ r ∈ results, isStatuteTitle r.title = false) →
          search_statutes results = []) := by
  constructor
  · intro results h
    unfold search_case_law
    rw [List.filter_eq_nil_iff]
    intro r hr
    rw [show (strContains r.title "BGer" || strContains r.title "Mietgericht")
          = isCourtDecisionTitle r.title from rfl, h r hr]
    exact Bool.false_ne_true
  · intro results h
    unfold search_statutes
    rw [List.filter_eq_nil_iff]
    intro r hr
    rw [show strContains r.title "OR Art" = isStatuteTitle r.title from rfl, h r hr]
    exact Bool.false_ne_true

/-- Witness for C7: a statute-only result list filtered by case-law search
and a case-law-only list filtered by statute search both come back empty. -/
theorem c7_witness :
    search_case_law [exDocORArt] = [] ∧ search_statutes [exDocBGer] = [] :=
  ⟨c7_empty_filter_not_error.1 [exDocORArt] (by decide),
   c7_empty_filter_not_error.2 [exDocBGer] (by decide)⟩

/-- `COUNT(q.query_id)` over a session's left-join group equals the number
of query rows owned by the session (in particular `0` for a session with
no queries, which still contributes its null-extended row). -/
theorem groupCount_joinGroup (db : DB) (s : SessionRow) :
    groupCount (joinGroup db s)
      = (db.queries.filter (fun q => q.session_id == s.session_id)).length := by
  unfold groupCount joinGroup
  by_cases h : (db.queries.filter (fun q => q.session_id == s.session_id)).isEmpty = true
  · have hnil := List.isEmpty_iff.mp h
    rw [if_pos h, hnil]
    rfl
  · rw [if_neg h]
    rw [List.filter_map]
    simp

/-- C8: `list_sessions` returns every stored session annotated with its
left-join query count, in creation-time descending order; sessions with
zero queries still appear, with count zero. -/
theorem c8_list_sessions :
    (∀ (db : DB),
        (list_sessions db).Perm
          (db.sessions.map (fun s =>
            ({ session_id := s.session_id, created_at := s.created_at
               query_count := groupCount (joinGroup db s) } : SessionSummary))))
      ∧ (∀ (db : DB),
          List.Pairwise (fun a b : SessionSummary => b.created_at ≤ a.created_at)
            (list_sessions db))
      ∧ (∀ (db : DB) (s : SessionRow), s ∈ db.sessions →
          (∀ q ∈ db.queries, ¬ q.session_id = s.session_id) →
          ({ session_id := s.session_id, created_at := s.created_at
             query_count := 0 } : SessionSummary) ∈ list_sessions db) := by
  refine ⟨?_, ?_, ?_⟩
  · intro db
    have hfg : (fun s : SessionRow =>
        ({ session_id := s.session_id, created_at := s.created_at
           query_count :=
             (db.queries.filter (fun q => q.session_id == s.session_id)).length } :
          SessionSummary))
        = (fun s : SessionRow =>
        ({ session_id := s.session_id, created_at := s.created_at
           query_count := groupCount (joinGroup db s) } : SessionSummary)) := by
      funext s
      rw [groupCount_joinGroup]
    unfold list_sessions
    rw [hfg]
    exact List.Perm.map _ (List.perm_insertionSort createdDescLE db.sessions)
  · intro db
    unfold list_sessions
    exact List.Pairwise.map _ (fun a b h => h)
      (List.sorted_insertionSort createdDescLE db.sessions)
  · intro db s hs hq
    have hfilter : db.queries.filter (fun q => q.session_id == s.session_id) = [] := by
      rw [List.filter_eq_nil_iff]
      intro q hqm
      simp [hq q hqm]
    unfold list_sessions
    refine List.mem_map.mpr ⟨s, (List.mem_insertionSort createdDescLE).mpr hs, ?_⟩
    rw [hfilter]
    rfl

/-- Witness for C8: in a database where session `"new"` has no queries,
`list_sessions` still reports it, with `query_count = 0`. -/
theorem c8_witness :
    ({ session_id := "new", created_at := 5, query_count := 0 } : SessionSummary)
      ∈ list_sessions c8DB :=
  c8_list_sessions.2.2 c8DB { session_id := "new", created_at := 5 }
    (by decide) (by decide)

/-- After the delete-if-exists step of `seed_collection`, no remaining
collection carries the target name. -/
theorem mem_store1_not_target {V : Type} (store : List (VCollection V)) :
    ∀ c ∈ (if collection_exists store COLLECTION_NAME then
             delete_collection store COLLECTION_NAME else store),
      (c.name == COLLECTION_NAME) = false := by
  intro c hc
  by_cases h : collection_exists store COLLECTION_NAME = true
  · rw [if_pos h] at hc
    unfold delete_collection at hc
    have hm := List.mem_filter.mp hc
    simpa using hm.2
  · rw [if_neg h] at hc
    have hfalse : collection_exists store COLLECTION_NAME = false :=
      Bool.eq_false_iff.mpr h
    unfold collection_exists at hfalse
    cases hval : (c.name == COLLECTION_NAME) with
    | false => rfl
    | true =>
      exfalso
      have hany : store.any (fun c2 => c2.name == COLLECTION_NAME) = true :=
        List.any_eq_true.mpr ⟨c, hc, hval⟩
      rw [hany] at hfalse
      exact Bool.false_ne_true hfalse.symm

/-- Upserting the seed points into a store whose only target-named
collection is the freshly created empty one fills exactly that
collection. -/
theorem upsert_append_fresh {V : Type} (l : List (VCollection V)) (pts : List (VPoint V))
    (hl : ∀ c ∈ l, (c.name == COLLECTION_NAME) = false) :
    upsert (l ++ [{ name := COLLECTION_NAME, size := EMBEDDING_DIM
                    distance := VDistance.cosine, points := [] }]) COLLECTION_NAME pts
      = l ++ [{ name := COLLECTION_NAME, size := EMBEDDING_DIM
                distance := VDistance.cosine, points := upsertPoints [] pts }] := by
  unfold upsert
  rw [List.map_append]
  congr 1
  · have hid : List.map
        (fun c => if c.name == COLLECTION_NAME then
          { c with points := upsertPoints c.points pts } else c) l
        = List.map id l := by
      refine List.map_congr_left ?_
      intro c hc
      rw [if_neg (by rw [hl c hc]; exact Bool.false_ne_true)]
      rfl
    rw [hid, List.map_id]

/-- `seed_collection` in closed form: the cleaned prior store followed by
the freshly seeded collection. -/
theorem seed_collection_eq {V : Type} (embed : String → V) (store : List (VCollection V)) :
    seed_collection embed store
      = (if collection_exists store COLLECTION_NAME then
           delete_collection store COLLECTION_NAME else store)
        ++ [{ name := COLLECTION_NAME, size := EMBEDDING_DIM
              distance := VDistance.cosine, points := seedPoints embed }] := by
  unfold seed_collection create_collection
  rw [upsert_append_fresh _ _ (mem_store1_not_target store)]
  rfl

/-- The cleaned prior store agrees with the prior store on every
collection not carrying the target name. -/
theorem store1_filter_not_target {V : Type} (store : List (VCollection V)) :
    ((if collection_exists store COLLECTION_NAME then
        delete_collection store COLLECTION_NAME else store).filter
      (fun c => !(c.name == COLLECTION_NAME)))
      = store.filter (fun c => !(c.name == COLLECTION_NAME)) := by
  by_cases h : collection_exists store COLLECTION_NAME = true
  · rw [if_pos h]
    unfold delete_collection
    rw [List.filter_filter]
    refine List.filter_congr ?_
    intro c _
    rw [Bool.and_self]
  · rw [if_neg h]

/-- C9: seeding is a full refresh: whatever the prior store contents, the
result holds exactly one collection with the configured name, freshly
created with the embedding dimension and cosine distance and seeded with
the whole corpus (one point per document, integer id `i`, the embedding of
the document's text, and a payload with its id, title, section and text);
collections with other names are untouched. -/
theorem c9_seed_full_refresh :
    (∀ (V : Type) (embed : String → V) (store : List (VCollection V)),
        (seed_collection embed store).filter (fun c => c.name == COLLECTION_NAME)
            = [{ name := COLLECTION_NAME, size := EMBEDDING_DIM
                 distance := VDistance.cosine, points := seedPoints embed }]
          ∧ (seed_collection embed store).filter (fun c => !(c.name == COLLECTION_NAME))
            = store.filter (fun c => !(c.name == COLLECTION_NAME)))
      ∧ (∀ (V : Type) (embed : String → V) (i : Nat) (doc : SeedDoc),
          SEED_DOCUMENTS[i]? = some doc →
          (seedPoints embed)[i]?
            = some { id := i, vector := embed doc.text
                     payload := { document_id := doc.document_id, title := doc.title
                                  «section» := doc.«section», text := doc.text } })
      ∧ (∀ (V : Type) (embed : String → V),
          (seedPoints embed).length = SEED_DOCUMENTS.length) := by
  refine ⟨?_, ?_, ?_⟩
  · intro V embed store
    rw [seed_collection_eq]
    constructor
    · rw [List.filter_append]
      have h1 : ((if collection_exists store COLLECTION_NAME then
            delete_collection store COLLECTION_NAME else store).filter
          (fun c => c.name == COLLECTION_NAME)) = [] := by
        rw [List.filter_eq_nil_iff]
        intro c hc
        rw [mem_store1_not_target store c hc]
        exact Bool.false_ne_true
      rw [h1]
      rw [List.nil_append, List.filter_cons]
      rw [if_pos (beq_self_eq_true COLLECTION_NAME)]
      rfl
    · rw [List.filter_append, store1_filter_not_target]
      have h2 : (List.filter (fun c => !(c.name == COLLECTION_NAME))
          [({ name := COLLECTION_NAME, size := EMBEDDING_DIM, distance := VDistance.cosine, points := seedPoints embed } : VCollection V)]) = [] := by
        simp
      rw [h2, List.append_nil]
  · intro V embed i doc hdoc
    unfold seedPoints
    rw [List.getElem?_map, List.getElem?_enum, hdoc]
    rfl
  · intro V embed
    unfold seedPoints
    rw [List.length_map, List.enum_length]

/-- Witness for C9's corpus-shape part at index `0` with a trivial
embedding into `Unit`. -/
theorem c9_witness :
    (seedPoints (fun _ => ()) : List (VPoint Unit))[0]?
      = some { id := 0, vector := ()
               payload := { document_id := "or-art-271"
                            title := "OR Art. 271 — Protection Against Termination"
                            «section» := "Art. 271 OR (Code of Obligations)"
                            text := "A termination of a residential or commercial lease may be contested if it contravenes the principle of good faith. In particular, a termination is contestable if given because the tenant asserts claims arising from the lease in good faith, because the tenant is affiliated with an organisation that represents the interests of tenants, or during proceedings related to the lease. The burden of proof for retaliatory motive rests with the tenant." } } :=
  c9_seed_full_refresh.2.1 Unit (fun _ => ()) 0
    { document_id := "or-art-271"
      title := "OR Art. 271 — Protection Against Termination"
      «section» := "Art. 271 OR (Code of Obligations)"
      text := "A termination of a residential or commercial lease may be contested if it contravenes the principle of good faith. In particular, a termination is contestable if given because the tenant asserts claims arising from the lease in good faith, because the tenant is affiliated with an organisation that represents the interests of tenants, or during proceedings related to the lease. The burden of proof for retaliatory motive rests with the tenant." }
    (by rfl)

end LegalAgent
